import Mathlib

/-!
Shallow embedding of `x/ibc/20-transfer/types/msgs.go`: the two IBC transfer
module messages (`MsgTransfer`, `MsgRecvPacket`), their constructors,
`ValidateBasic`, `GetSignBytes`, `GetSigners` and `Route`, together with
theorems settling the specification claims about them.

External collaborators that `msgs.go` calls but whose code lives outside the
embedded file (the host identifier validators, `sdk.Coins` predicates, the
`sdk.AccAddress` type, the commitment `Proof` type, the packet contract, the
codec used for sign bytes, and `ibctypes.RouterKey`) are modelled from the
specification, as noted on each definition.
-/

namespace IbcTransfer

/-- A byte-sequence account address (`sdk.AccAddress`): an opaque list of
bytes whose only operation used here is the emptiness test (`Empty()`,
modelled by `List.isEmpty`). -/
abbrev AccAddress := List Nat

/-- A single coin of `sdk.Coins`: a denomination with an integer quantity. -/
structure Coin where
  denom : String
  amount : Int
deriving DecidableEq, Repr

/-- An ordered multiset of coins (`sdk.Coins`). -/
abbrev Coins := List Coin

/-- Denomination uniqueness of a coin list: no denomination appears twice. -/
def Coins.denomsUnique : Coins → Bool
  | [] => true
  | c :: rest => rest.all (fun d => d.denom != c.denom) && Coins.denomsUnique rest

/-- Modelled from the spec: `sdk.Coins.IsValid` (the coin-set type is outside
`src/`). The spec states the well-formedness invariant as "no duplicate
denominations, no negative quantities". -/
def Coins.isValid (cs : Coins) : Bool :=
  Coins.denomsUnique cs && cs.all (fun c => decide (0 ≤ c.amount))

/-- Modelled from the spec: `sdk.Coins.IsAllPositive` (outside `src/`); the
spec reads it as "every entry in `amount` is strictly positive". -/
def Coins.isAllPositive (cs : Coins) : Bool :=
  cs.all (fun c => decide (0 < c.amount))

/-- The distinct error outcomes of `MsgTransfer.ValidateBasic`, one per
return site in the source. -/
inductive TransferError where
  | invalidPortID
  | invalidChannelID
  | invalidAmount
  | nonPositiveAmount
  | missingSender
  | missingReceiver
deriving DecidableEq, Repr

/-- The `MsgTransfer` struct of `msgs.go`. -/
structure MsgTransfer where
  sourcePort : String
  sourceChannel : String
  amount : Coins
  sender : AccAddress
  receiver : AccAddress
  source : Bool
deriving DecidableEq, Repr

/-- `NewMsgTransfer`: plain field assembly, no validation. -/
def NewMsgTransfer (sourcePort sourceChannel : String) (amount : Coins)
    (sender receiver : AccAddress) (source : Bool) : MsgTransfer :=
  ⟨sourcePort, sourceChannel, amount, sender, receiver, source⟩

/-- Modelled from the spec: `ibctypes.RouterKey` (defined outside `src/`),
the constant routing key identifying the owning IBC module; both message
types in `msgs.go` return this same named constant. -/
def RouterKey : String := "ibc"

/-- `MsgTransfer.Route`: returns `ibctypes.RouterKey`, ignoring the receiver. -/
def MsgTransfer.route (_ : MsgTransfer) : String := RouterKey

/-- `MsgTransfer.Type`. -/
def MsgTransfer.msgType (_ : MsgTransfer) : String := "transfer"

/-- `MsgTransfer.ValidateBasic`. The two identifier validators it calls
(`host.DefaultConnectionIdentifierValidator` on the source port and
`host.DefaultClientIdentifierValidator` on the source channel) are outside
`src/`; the spec only says identifiers "must satisfy an externally defined
validator" whose rules it does not define, so they are passed in as
parameters `validPort` and `validChannel`. `none` is the nil (success)
result; `some e` is the error returned at the corresponding source line. -/
def MsgTransfer.validateBasic (validPort validChannel : String → Bool)
    (msg : MsgTransfer) : Option TransferError :=
  if !(validPort msg.sourcePort) then some .invalidPortID
  else if !(validChannel msg.sourceChannel) then some .invalidChannelID
  else if !(Coins.isValid msg.amount) then some .invalidAmount
  else if !(Coins.isAllPositive msg.amount) then some .nonPositiveAmount
  else if msg.sender.isEmpty then some .missingSender
  else if msg.receiver.isEmpty then some .missingReceiver
  else none

/-- Separator used by the canonical serialization below. -/
def commaSep : String := ","

/-- Canonical encoding of a byte-sequence address as a JSON array. -/
def encodeAddr (a : AccAddress) : String :=
  "[" ++ String.intercalate commaSep (a.map toString) ++ "]"

/-- Canonical encoding of one coin with its keys in sorted order. -/
def encodeCoin (c : Coin) : String :=
  "\x7b\"amount\":\"" ++ toString c.amount ++ "\",\"denom\":\"" ++ c.denom ++ "\"\x7d"

/-- Canonical encoding of a coin list as a JSON array. -/
def encodeCoins (cs : Coins) : String :=
  "[" ++ String.intercalate commaSep (cs.map encodeCoin) ++ "]"

/-- Modelled from the spec: `MsgTransfer.GetSignBytes`
(`sdk.MustSortJSON(ModuleCdc.MustMarshalJSON(msg))`, whose codec is outside
`src/`): a canonical serialization of the message with its keys emitted in
sorted order (amount, receiver, sender, source, source_channel,
source_port), a pure function of the field values alone. -/
def MsgTransfer.getSignBytes (msg : MsgTransfer) : String :=
  "\x7b\"amount\":" ++ encodeCoins msg.amount ++
  ",\"receiver\":" ++ encodeAddr msg.receiver ++
  ",\"sender\":" ++ encodeAddr msg.sender ++
  ",\"source\":" ++ (if msg.source then "true" else "false") ++
  ",\"source_channel\":\"" ++ msg.sourceChannel ++
  "\",\"source_port\":\"" ++ msg.sourcePort ++ "\"\x7d"

/-- `MsgTransfer.GetSigners`: the single-element list holding the sender. -/
def MsgTransfer.getSigners (msg : MsgTransfer) : List AccAddress :=
  [msg.sender]

/-- Modelled from the spec: a commitment `Proof` (`commitment.Proof`, outside
`src/`) wraps a possibly-nil inner proof; `msgs.go` checks `proof.Proof == nil`,
modelled as the inner option being `none`. -/
structure Proof where
  proof : Option (List Nat)
deriving DecidableEq, Repr

/-- Modelled from the spec: the packet value contract
(`channelexported.PacketI`, outside `src/`) exposes only a `ValidateBasic`
operation, here the stored result: `none` for success, `some e` for a
packet-level error carrying an opaque payload. -/
structure Packet where
  validateBasic : Option String
deriving DecidableEq, Repr

/-- The distinct error outcomes of `MsgRecvPacket.ValidateBasic`, one per
return site in the source; `packetError` wraps the delegated packet error. -/
inductive RecvError where
  | invalidHeight
  | missingProof
  | emptyProof
  | missingSigner
  | packetError (e : String)
deriving DecidableEq, Repr

/-- The `MsgRecvPacket` struct of `msgs.go`. -/
structure MsgRecvPacket where
  packet : Packet
  proofs : List Proof
  height : Nat
  signer : AccAddress
deriving DecidableEq, Repr

/-- `NewMsgRecvPacket`: plain field assembly, no validation. -/
def NewMsgRecvPacket (packet : Packet) (proofs : List Proof) (height : Nat)
    (signer : AccAddress) : MsgRecvPacket :=
  ⟨packet, proofs, height, signer⟩

/-- `MsgRecvPacket.Route`: returns `ibctypes.RouterKey`, ignoring the receiver. -/
def MsgRecvPacket.route (_ : MsgRecvPacket) : String := RouterKey

/-- `MsgRecvPacket.Type`. -/
def MsgRecvPacket.msgType (_ : MsgRecvPacket) : String := "recv_packet"

/-- The `for _, proof := range msg.Proofs` loop of
`MsgRecvPacket.ValidateBasic`: returns the empty-proof error at the first
entry whose inner proof is nil, leaving later entries unexamined. -/
def checkProofs : List Proof → Option RecvError
  | [] => none
  | p :: rest =>
    if p.proof.isNone then some .emptyProof else checkProofs rest

/-- `MsgRecvPacket.ValidateBasic`: height, proofs presence, per-proof
emptiness, signer, then delegation to `packet.ValidateBasic` whose error (if
any) is converted into this message's error type. -/
def MsgRecvPacket.validateBasic (msg : MsgRecvPacket) : Option RecvError :=
  if msg.height = 0 then some .invalidHeight
  else if msg.proofs.isEmpty then some .missingProof
  else
    match checkProofs msg.proofs with
    | some e => some e
    | none =>
      if msg.signer.isEmpty then some .missingSigner
      else msg.packet.validateBasic.map .packetError

/-- `MsgRecvPacket.GetSigners`: the single-element list holding the signer. -/
def MsgRecvPacket.getSigners (msg : MsgRecvPacket) : List AccAddress :=
  [msg.signer]

/-! Concrete values used by witnesses and counterexamples. -/

/-- A validator accepting every identifier. -/
def allowAll : String → Bool := fun _ => true

/-- A validator rejecting every identifier. -/
def rejectAll : String → Bool := fun _ => false

/-- A concrete port identifier. -/
def portA : String := "transfer"

/-- A concrete channel identifier. -/
def chanA : String := "channel-0"

/-- A concrete denomination. -/
def denomAtom : String := "atom"

/-- A fully valid transfer message used by witnesses. -/
def msgGood : MsgTransfer := ⟨ portA, chanA, [⟨ denomAtom, 100⟩], [1], [2], true⟩

/-- A transfer message whose amount holds a zero quantity. -/
def msgZeroAmount : MsgTransfer := ⟨ portA, chanA, [⟨ denomAtom, 0⟩], [1], [2], true⟩

/-- A transfer message whose amount holds a negative quantity. -/
def msgNegAmount : MsgTransfer := ⟨ portA, chanA, [⟨ denomAtom, -1⟩], [1], [2], true⟩

/-- An opaque packet-level error payload. -/
def badPacketMsg : String := "invalid packet"

/-- A packet whose own validation succeeds. -/
def packetOK : Packet := ⟨none⟩

/-- A packet whose own validation fails with `badPacketMsg`. -/
def packetBad : Packet := ⟨some badPacketMsg⟩

/-- A non-nil commitment proof. -/
def proofOK : Proof := ⟨some [1]⟩

/-- A nil (empty) commitment proof. -/
def proofNil : Proof := ⟨none⟩

/-! Helper lemmas shared by the claim theorems. -/

/-- All quantities strictly positive makes `Coins.isAllPositive` hold. -/
theorem isAllPositive_of_pos (cs : Coins) (h : ∀ c ∈ cs, 0 < c.amount) :
    Coins.isAllPositive cs = true := by
  simp only [Coins.isAllPositive, List.all_eq_true, decide_eq_true_eq]
  exact h

/-- Unique denominations and non-negative quantities make `Coins.isValid` hold. -/
theorem isValid_of_uniq_nonneg (cs : Coins)
    (huniq : Coins.denomsUnique cs = true) (h : ∀ c ∈ cs, 0 ≤ c.amount) :
    Coins.isValid cs = true := by
  simp only [Coins.isValid, huniq, Bool.true_and, List.all_eq_true, decide_eq_true_eq]
  exact h

/-- A negative quantity anywhere falsifies `Coins.isValid`. -/
theorem isValid_eq_false_of_neg (cs : Coins) (h : ∃ c ∈ cs, c.amount < 0) :
    Coins.isValid cs = false := by
  obtain ⟨c, hc, hneg⟩ := h
  have hall : cs.all (fun c => decide (0 ≤ c.amount)) = false := by
    rw [Bool.eq_false_iff]
    intro hall
    rw [List.all_eq_true] at hall
    have := hall c hc
    simp only [decide_eq_true_eq] at this
    omega
  simp [Coins.isValid, hall]

/-- A zero quantity anywhere falsifies `Coins.isAllPositive`. -/
theorem isAllPositive_eq_false_of_zero (cs : Coins) (h : ∃ c ∈ cs, c.amount = 0) :
    Coins.isAllPositive cs = false := by
  obtain ⟨c, hc, hzero⟩ := h
  rw [Bool.eq_false_iff]
  intro hall
  rw [Coins.isAllPositive, List.all_eq_true] at hall
  have := hall c hc
  simp only [decide_eq_true_eq] at this
  omega

/-- The proof loop succeeds when every entry carries a non-nil inner proof. -/
theorem checkProofs_eq_none (ps : List Proof) (h : ∀ p ∈ ps, p.proof ≠ none) :
    checkProofs ps = none := by
  induction ps with
  | nil => rfl
  | cons p rest ih =>
    have hp : p.proof.isNone = false := by
      cases hpp : p.proof with
      | none => exact absurd hpp (h p (List.mem_cons_self p rest))
      | some v => rfl
    simp only [checkProofs, hp, Bool.false_eq_true, if_false]
    exact ih (fun q hq => h q (List.mem_cons_of_mem p hq))

/-- The proof loop fails with the empty-proof error when some entry is nil. -/
theorem checkProofs_eq_some (ps : List Proof) (h : ∃ p ∈ ps, p.proof = none) :
    checkProofs ps = some RecvError.emptyProof := by
  induction ps with
  | nil => simp at h
  | cons p rest ih =>
    cases hpp : p.proof with
    | none => simp [checkProofs, hpp]
    | some v =>
      obtain ⟨q, hq, hqn⟩ := h
      rcases List.mem_cons.mp hq with hq1 | hq2
      · subst hq1; rw [hpp] at hqn; exact absurd hqn (by simp)
      · simp only [checkProofs, hpp, Option.isNone_some, Bool.false_eq_true, if_false]
        exact ih ⟨q, hq2, hqn⟩

/-! Claim theorems. -/

/-- Claim C1: for every TransferMessage whose source port and source channel
pass the identifier validators, whose amount has unique denominations and
strictly positive quantities throughout, and whose sender and receiver are
non-empty, `ValidateBasic` returns success (nil error). -/
theorem transfer_validateBasic_success (validPort validChannel : String → Bool)
    (msg : MsgTransfer)
    (hport : validPort msg.sourcePort = true)
    (hchan : validChannel msg.sourceChannel = true)
    (huniq : Coins.denomsUnique msg.amount = true)
    (hpos : ∀ c ∈ msg.amount, 0 < c.amount)
    (hsender : msg.sender ≠ [])
    (hreceiver : msg.receiver ≠ []) :
    MsgTransfer.validateBasic validPort validChannel msg = none := by
  have hall : Coins.isAllPositive msg.amount = true :=
    isAllPositive_of_pos msg.amount hpos
  have hvalid : Coins.isValid msg.amount = true :=
    isValid_of_uniq_nonneg msg.amount huniq (fun c hc => le_of_lt (hpos c hc))
  simp [MsgTransfer.validateBasic, hport, hchan, hvalid, hall,
    List.isEmpty_eq_false.mpr hsender, List.isEmpty_eq_false.mpr hreceiver]

/-- Witness for C1 at a concrete fully valid message. -/
theorem transfer_validateBasic_success_witness :
    MsgTransfer.validateBasic allowAll allowAll msgGood = none :=
  transfer_validateBasic_success allowAll allowAll msgGood (by decide) (by decide)
    (by decide) (by decide) (by decide) (by decide)

/-- Claim C2: `ValidateBasic` checks the source port identifier first,
returning the invalid-port-ID error when it fails regardless of every other
field, and the source channel identifier second, returning the
invalid-channel-ID error when the port passes and the channel fails,
regardless of every remaining field. -/
theorem transfer_identifier_checks_first (validPort validChannel : String → Bool)
    (msg : MsgTransfer) :
    (validPort msg.sourcePort = false →
      MsgTransfer.validateBasic validPort validChannel msg =
        some TransferError.invalidPortID) ∧
    (validPort msg.sourcePort = true → validChannel msg.sourceChannel = false →
      MsgTransfer.validateBasic validPort validChannel msg =
        some TransferError.invalidChannelID) := by
  constructor
  · intro h
    simp [MsgTransfer.validateBasic, h]
  · intro hp hc
    simp [MsgTransfer.validateBasic, hp, hc]

/-- Witness for C2: a rejecting port validator yields the invalid-port-ID
error, and a passing port with a rejecting channel validator yields the
invalid-channel-ID error, on the same concrete message. -/
theorem transfer_identifier_checks_first_witness :
    MsgTransfer.validateBasic rejectAll allowAll msgGood =
      some TransferError.invalidPortID ∧
    MsgTransfer.validateBasic allowAll rejectAll msgGood =
      some TransferError.invalidChannelID :=
  ⟨(transfer_identifier_checks_first rejectAll allowAll msgGood).1 rfl,
   (transfer_identifier_checks_first allowAll rejectAll msgGood).2 rfl rfl⟩

/-- Counterexample to claim C3 as stated: a message with passing identifier
validators whose amount holds a negative quantity fails with the
invalid-amount kind (well-formedness is checked first), not the
non-positive-amount kind the claim requires. -/
theorem transfer_nonpositive_counterexample :
    MsgTransfer.validateBasic allowAll allowAll msgNegAmount =
      some TransferError.invalidAmount ∧
    some TransferError.invalidAmount ≠ some TransferError.nonPositiveAmount := by
  constructor
  · decide
  · decide

/-- Claim C3 amended: with passing identifier validators, an amount that is
otherwise well-formed (unique denominations, no negative quantities) and
holds a zero quantity fails with the non-positive-amount kind, while an
amount holding a negative quantity fails with the invalid-amount kind,
because the well-formedness check runs first. -/
theorem transfer_nonpositive_amount_amended (validPort validChannel : String → Bool)
    (msg : MsgTransfer)
    (hport : validPort msg.sourcePort = true)
    (hchan : validChannel msg.sourceChannel = true) :
    (Coins.denomsUnique msg.amount = true → (∀ c ∈ msg.amount, 0 ≤ c.amount) →
      (∃ c ∈ msg.amount, c.amount = 0) →
      MsgTransfer.validateBasic validPort validChannel msg =
        some TransferError.nonPositiveAmount) ∧
    ((∃ c ∈ msg.amount, c.amount < 0) →
      MsgTransfer.validateBasic validPort validChannel msg =
        some TransferError.invalidAmount) := by
  constructor
  · intro huniq hnonneg hzero
    have hvalid : Coins.isValid msg.amount = true :=
      isValid_of_uniq_nonneg msg.amount huniq hnonneg
    have hall : Coins.isAllPositive msg.amount = false :=
      isAllPositive_eq_false_of_zero msg.amount hzero
    simp [MsgTransfer.validateBasic, hport, hchan, hvalid, hall]
  · intro hneg
    have hvalid : Coins.isValid msg.amount = false :=
      isValid_eq_false_of_neg msg.amount hneg
    simp [MsgTransfer.validateBasic, hport, hchan, hvalid]

/-- Witness for the amended C3: a concrete zero-quantity amount yields the
non-positive-amount kind and a concrete negative-quantity amount yields the
invalid-amount kind. -/
theorem transfer_nonpositive_amount_amended_witness :
    MsgTransfer.validateBasic allowAll allowAll msgZeroAmount =
      some TransferError.nonPositiveAmount ∧
    MsgTransfer.validateBasic allowAll allowAll msgNegAmount =
      some TransferError.invalidAmount :=
  ⟨(transfer_nonpositive_amount_amended allowAll allowAll msgZeroAmount
      (by decide) (by decide)).1 (by decide) (by decide)
      ⟨⟨ denomAtom, 0⟩, by decide, by decide⟩,
   (transfer_nonpositive_amount_amended allowAll allowAll msgNegAmount
      (by decide) (by decide)).2
      ⟨⟨ denomAtom, -1⟩, by decide, by decide⟩⟩

/-- Claim C4: for every PacketReceiptMessage with non-zero height, an empty
proof sequence fails with the missing-proof error, and a non-empty sequence
holding any entry with a nil inner proof fails with the empty-proof error
even when other entries are well-formed; the loop in the source returns at
the first nil entry, leaving later entries unexamined. -/
theorem recvPacket_proof_checks (msg : MsgRecvPacket) (hh : msg.height ≠ 0) :
    (msg.proofs = [] →
      MsgRecvPacket.validateBasic msg = some RecvError.missingProof) ∧
    ((∃ p ∈ msg.proofs, p.proof = none) →
      MsgRecvPacket.validateBasic msg = some RecvError.emptyProof) := by
  constructor
  · intro hempty
    simp [MsgRecvPacket.validateBasic, hh, hempty]
  · intro hnil
    obtain ⟨p, hp, hpn⟩ := hnil
    have hne : msg.proofs ≠ [] := by
      intro h
      rw [h] at hp
      exact absurd hp (List.not_mem_nil p)
    rw [MsgRecvPacket.validateBasic, if_neg hh,
      if_neg (by simp [List.isEmpty_eq_false.mpr hne]),
      checkProofs_eq_some msg.proofs ⟨p, hp, hpn⟩]

/-- Witness for C4: a concrete message with no proofs fails with the
missing-proof error, and one whose second proof is nil (first and third
well-formed) fails with the empty-proof error. -/
theorem recvPacket_proof_checks_witness :
    MsgRecvPacket.validateBasic ⟨packetOK, [], 10, [3]⟩ =
      some RecvError.missingProof ∧
    MsgRecvPacket.validateBasic ⟨packetOK, [proofOK, proofNil, proofOK], 10, [3]⟩ =
      some RecvError.emptyProof :=
  ⟨(recvPacket_proof_checks ⟨packetOK, [], 10, [3]⟩ (by decide)).1 rfl,
   (recvPacket_proof_checks ⟨packetOK, [proofOK, proofNil, proofOK], 10, [3]⟩
      (by decide)).2 ⟨proofNil, by decide, by decide⟩⟩

/-- Claim C5: for every PacketReceiptMessage with height zero,
`ValidateBasic` fails with the invalid-height error, whatever the packet,
proofs and signer hold. -/
theorem recvPacket_zero_height (msg : MsgRecvPacket) (h : msg.height = 0) :
    MsgRecvPacket.validateBasic msg = some RecvError.invalidHeight := by
  simp [MsgRecvPacket.validateBasic, h]

/-- Witness for C5 at a message whose every other field is well-formed. -/
theorem recvPacket_zero_height_witness :
    MsgRecvPacket.validateBasic ⟨packetOK, [proofOK], 0, [3]⟩ =
      some RecvError.invalidHeight :=
  recvPacket_zero_height ⟨packetOK, [proofOK], 0, [3]⟩ rfl

/-- Claim C6: once the height, proofs and signer checks pass,
`ValidateBasic` delegates to the packet's own validation and propagates its
result: success exactly when the packet validates, and otherwise the
packet's error wrapped into this message's error type. -/
theorem recvPacket_delegates (msg : MsgRecvPacket)
    (hh : msg.height ≠ 0) (hne : msg.proofs ≠ [])
    (hall : ∀ p ∈ msg.proofs, p.proof ≠ none)
    (hs : msg.signer ≠ []) :
    (MsgRecvPacket.validateBasic msg = none ↔ msg.packet.validateBasic = none) ∧
    (∀ e, msg.packet.validateBasic = some e →
      MsgRecvPacket.validateBasic msg = some (RecvError.packetError e)) := by
  have hred : MsgRecvPacket.validateBasic msg =
      msg.packet.validateBasic.map RecvError.packetError := by
    rw [MsgRecvPacket.validateBasic, if_neg hh,
      if_neg (by simp [List.isEmpty_eq_false.mpr hne]),
      checkProofs_eq_none msg.proofs hall,
      if_neg (by simp [List.isEmpty_eq_false.mpr hs])]
  constructor
  · rw [hred]
    cases msg.packet.validateBasic with
    | none => simp
    | some e => simp
  · intro e he
    rw [hred, he]
    rfl

/-- Witness for C6: with all structural checks passing, a packet that
validates yields overall success and a packet carrying an error yields that
error wrapped. -/
theorem recvPacket_delegates_witness :
    MsgRecvPacket.validateBasic ⟨packetOK, [proofOK], 10, [3]⟩ = none ∧
    MsgRecvPacket.validateBasic ⟨packetBad, [proofOK], 10, [3]⟩ =
      some (RecvError.packetError badPacketMsg) :=
  ⟨(recvPacket_delegates ⟨packetOK, [proofOK], 10, [3]⟩ (by decide) (by decide)
      (by decide) (by decide)).1.mpr rfl,
   (recvPacket_delegates ⟨packetBad, [proofOK], 10, [3]⟩ (by decide) (by decide)
      (by decide) (by decide)).2 badPacketMsg rfl⟩

/-- Claim C7: `GetSigners` on a TransferMessage is always the one-element
list holding its sender, and on a PacketReceiptMessage always the
one-element list holding its signer, for every message whatever its other
fields. -/
theorem getSigners_exact (mt : MsgTransfer) (mr : MsgRecvPacket) :
    MsgTransfer.getSigners mt = [mt.sender] ∧
    MsgRecvPacket.getSigners mr = [mr.signer] :=
  ⟨rfl, rfl⟩

/-- Claim C8: `GetSignBytes` is a deterministic function of the field
values: two TransferMessages whose six fields agree produce identical sign
bytes, however each was constructed. -/
theorem getSignBytes_deterministic (m1 m2 : MsgTransfer)
    (h1 : m1.sourcePort = m2.sourcePort)
    (h2 : m1.sourceChannel = m2.sourceChannel)
    (h3 : m1.amount = m2.amount)
    (h4 : m1.sender = m2.sender)
    (h5 : m1.receiver = m2.receiver)
    (h6 : m1.source = m2.source) :
    MsgTransfer.getSignBytes m1 = MsgTransfer.getSignBytes m2 := by
  have : m1 = m2 := by
    cases m1
    cases m2
    simp_all
  rw [this]

/-- Witness for C8: two independently constructed messages with equal fields
produce identical sign bytes. -/
theorem getSignBytes_deterministic_witness :
    MsgTransfer.getSignBytes msgGood =
      MsgTransfer.getSignBytes (NewMsgTransfer portA chanA [⟨ denomAtom, 100⟩] [1] [2] true) :=
  getSignBytes_deterministic msgGood
    (NewMsgTransfer portA chanA [⟨ denomAtom, 100⟩] [1] [2] true)
    rfl rfl rfl rfl rfl rfl

/-- Claim C9: both constructors are total and validation-free: for every
combination of arguments, each field of the returned message equals the
corresponding argument exactly. -/
theorem constructors_exact (sourcePort sourceChannel : String) (amount : Coins)
    (sender receiver : AccAddress) (source : Bool)
    (packet : Packet) (proofs : List Proof) (height : Nat) (signer : AccAddress) :
    (NewMsgTransfer sourcePort sourceChannel amount sender receiver source).sourcePort
      = sourcePort ∧
    (NewMsgTransfer sourcePort sourceChannel amount sender receiver source).sourceChannel
      = sourceChannel ∧
    (NewMsgTransfer sourcePort sourceChannel amount sender receiver source).amount
      = amount ∧
    (NewMsgTransfer sourcePort sourceChannel amount sender receiver source).sender
      = sender ∧
    (NewMsgTransfer sourcePort sourceChannel amount sender receiver source).receiver
      = receiver ∧
    (NewMsgTransfer sourcePort sourceChannel amount sender receiver source).source
      = source ∧
    (NewMsgRecvPacket packet proofs height signer).packet = packet ∧
    (NewMsgRecvPacket packet proofs height signer).proofs = proofs ∧
    (NewMsgRecvPacket packet proofs height signer).height = height ∧
    (NewMsgRecvPacket packet proofs height signer).signer = signer :=
  ⟨rfl, rfl, rfl, rfl, rfl, rfl, rfl, rfl, rfl, rfl⟩

/-- Claim C10: `Route` on both message types is the same constant
`RouterKey`, independent of every field, so every TransferMessage and every
PacketReceiptMessage share one routing key. -/
theorem route_constant_shared (m1 : MsgTransfer) (m2 : MsgRecvPacket) :
    MsgTransfer.route m1 = RouterKey ∧
    MsgRecvPacket.route m2 = RouterKey ∧
    MsgTransfer.route m1 = MsgRecvPacket.route m2 :=
  ⟨rfl, rfl, rfl⟩

end IbcTransfer
